import Mathlib

/-!
Shallow embedding of the two command-line scripts of the wispy repository,
`bin/chatterbox-tts.py` and `bin/run-chatterbox.py`.

Each script is a single linear `main` that parses positional arguments, loads
an external text-to-speech model, calls its `generate` method and writes the
waveform to a file.  The external collaborators (the torch / chatterbox /
torchaudio imports, the model factory, the model's `generate` method and the
audio writer) are modelled by an `Env` record of oracles; the observable
behaviour of a run is a trace of events (console prints, import attempts,
model calls, filesystem calls), a process outcome (an exit code, or an
uncaught `ValueError` from `float()`), and the resulting filesystem state.
-/

set_option maxHeartbeats 1000000

namespace Wispy

/-- The exceptions the scripts' handlers distinguish: `MemoryError` (handled
specially by `run-chatterbox.py`) and any other exception carrying a message. -/
inductive PyExn where
  | memoryError
  | error (msg : String)
deriving DecidableEq, Repr

/-- `str(e)` as interpolated by the catch-all handlers; `str` of a bare
`MemoryError` is the empty string. -/
def PyExn.msg : PyExn → String
  | .memoryError => ""
  | .error m => m

/-- The in-memory waveform returned by the model's `generate`; a numeric
buffer the scripts never inspect. -/
structure Waveform where
  data : List Int
deriving DecidableEq, Repr

/-- A value of Python's `float` type as the scripts handle it: a finite value
(idealised as an exact rational), a signed infinity, or NaN.  `float()`
accepts "inf"/"infinity"/"nan" (any case, optionally signed) in addition to
decimal literals, so the parsed value passed to `generate` ranges over all
three forms. -/
inductive PyFloat where
  | finite (val : ℚ)
  | inf (neg : Bool)
  | nan
deriving DecidableEq, Repr

/-- Observable events of one run: console prints and calls to the external
collaborators, in program order. -/
inductive Event where
  | print (line : String)
  | importTorch
  | importTTS
  | importTorchaudio
  | setNumThreads (n : Nat)
  | gcCollect
  | delModel
  | fromPretrained (device : String)
  | generate (text : String) (exaggeration : PyFloat) (cfgWeight : Option PyFloat)
  | readSr (sr : Nat)
  | makedirs (dir : String) (existOk : Bool)
  | save (path : String) (sampleRate : Nat)
deriving DecidableEq, Repr

/-- How the process ends: `sys.exit(code)` / normal end of `main` (code 0), or
an uncaught `ValueError` raised by `float()` on the given literal (this happens
before the scripts' `try` blocks, so no handler sees it). -/
inductive Outcome where
  | exit (code : Nat)
  | uncaughtValueError (literal : String)
deriving DecidableEq, Repr

/-- Filesystem state: the set of existing directories and the regular files
(path, size in bytes). -/
structure FS where
  dirs : List String
  files : List (String × Nat)
deriving DecidableEq, Repr

/-- A regular file exists at `p`. -/
def hasFile (fs : FS) (p : String) : Bool :=
  fs.files.any (fun kv => kv.1 = p)

/-- `os.path.exists`: true for directories and regular files alike. -/
def pathExists (fs : FS) (p : String) : Bool :=
  fs.dirs.contains p || hasFile fs p

/-- `os.path.getsize` on a regular file, `none` when absent. -/
def getFile? (fs : FS) (p : String) : Option Nat :=
  (fs.files.find? (fun kv => kv.1 = p)).map (fun kv => kv.2)

/-- The audio writer creating (or overwriting) the file at `p` with `n` bytes. -/
def setFile (fs : FS) (p : String) (n : Nat) : FS :=
  { fs with files := (p, n) :: fs.files.filter (fun kv => kv.1 ≠ p) }

/-- `os.path.dirname` (posix): the part before the last slash, with trailing
slashes stripped unless the result is all slashes. -/
def dirname (p : String) : String :=
  let cs := p.data
  let i := (List.range cs.length).foldl
    (fun acc j => if cs.getD j ' ' = '/' then j + 1 else acc) 0
  let head := cs.take i
  if head ≠ [] ∧ head.any (fun c => c ≠ '/') then
    String.mk (List.reverse (List.dropWhile (fun c => c = '/') head.reverse))
  else String.mk head

/-- Iterated `dirname`, fuelled (each step strictly shortens the path or
reaches a fixpoint): the proper ancestors of a path, outermost first. -/
def ancestorsAux : Nat → String → List String
  | 0, _ => []
  | fuel + 1, q =>
    let h := dirname q
    if h = "" ∨ h = q then [] else ancestorsAux fuel h ++ [h]

/-- The proper ancestor directories of a path, outermost first:
`ancestors "a/b/c"` is `["a", "a/b"]`. -/
def ancestors (d : String) : List String :=
  ancestorsAux d.length d

/-- Walk a chain of nested directory paths, outermost first, as
`os.makedirs` does: an existing directory is kept, a regular file at an
intermediate component raises `NotADirectoryError`, a regular file at the
final component raises `FileExistsError` (not suppressed by exist_ok), and a
missing component is created. -/
def mkdirChain : FS → List String → Except PyExn FS
  | fs, [] => .ok fs
  | fs, q :: rest =>
    if q ∈ fs.dirs then mkdirChain fs rest
    else if hasFile fs q then
      .error (.error ((if rest.isEmpty then "FileExistsError: "
        else "NotADirectoryError: ") ++ q))
    else mkdirChain ⟨q :: fs.dirs, fs.files⟩ rest

/-- `os.makedirs(d, exist_ok=True)`: creates every missing ancestor of `d`
and then `d` itself; an existing directory anywhere in the chain is accepted,
a regular file at any component aborts with an error. -/
def makedirsFS (fs : FS) (d : String) : Except PyExn FS :=
  mkdirChain fs (ancestors d ++ [d])

/-- Value of a list of decimal digit characters. -/
def digitsToNat (l : List Char) : Nat :=
  l.foldl (fun a c => a * 10 + (c.toNat - 48)) 0

/-- Python string slicing `s[:n]` by code points, as used in `text[:50]`. -/
def strTake (s : String) (n : Nat) : String :=
  String.mk (s.data.take n)

/-- The whitespace stripping `float()` performs on both ends of its input. -/
def trimWs (l : List Char) : List Char :=
  ((l.dropWhile Char.isWhitespace).reverse.dropWhile Char.isWhitespace).reverse

/-- Decimal text of a rational as interpolated into the scripts' f-strings;
abstracts CPython's float repr (no claim depends on this exact text). -/
def ratStr (q : ℚ) : String :=
  q.num.repr ++ "/" ++ q.den.repr

/-- Text of a Python float value as interpolated into the f-strings. -/
def pyFloatStr : PyFloat → String
  | .finite q => ratStr q
  | .inf neg => if neg then "-inf" else "inf"
  | .nan => "nan"

/-- A PEP 515 digit group: decimal digits with single underscores strictly
between digits ("1_5" is valid, "_5", "5_" and "1__5" are not). -/
def digitsUnd : List Char → Bool
  | [] => false
  | [c] => c.isDigit
  | c :: d :: r =>
    c.isDigit &&
      (if d = '_' then
        (match r with
         | [] => false
         | _ => digitsUnd r)
      else digitsUnd (d :: r))

/-- Split a character list at the first character satisfying `p`; `none`
when no such character occurs. -/
def splitFirstBy (p : Char → Bool) : List Char → List Char × Option (List Char)
  | [] => ([], none)
  | c :: r =>
    if p c then ([], some r)
    else
      let s := splitFirstBy p r
      (c :: s.1, s.2)

/-- Read an optional leading sign; returns (isNegative, rest). -/
def readSign : List Char → Bool × List Char
  | '+' :: r => (false, r)
  | '-' :: r => (true, r)
  | r => (false, r)

/-- Python's `float()` builtin: optional surrounding whitespace, an optional
sign, then either "inf"/"infinity"/"nan" in any case, or a decimal literal
(digits with optional fraction part and optional decimal exponent, PEP 515
underscores allowed strictly between digits); finite values are exact
rationals; `none` when the literal is invalid and `float()` raises
`ValueError`. -/
def pyFloat? (s : String) : Option PyFloat :=
  let s1 := readSign (trimWs s.data)
  let neg := s1.1
  let low := s1.2.map Char.toLower
  if low = ['i', 'n', 'f'] || low = ['i', 'n', 'f', 'i', 'n', 'i', 't', 'y'] then
    some (.inf neg)
  else if low = ['n', 'a', 'n'] then
    some .nan
  else
    let m := splitFirstBy (fun c => c == 'e' || c == 'E') s1.2
    let ipfp := splitFirstBy (fun c => c == '.') m.1
    let ip := ipfp.1
    let fp := ipfp.2.getD []
    if (ip.isEmpty || digitsUnd ip) && (fp.isEmpty || digitsUnd fp) &&
        (!ip.isEmpty || !fp.isEmpty) then
      let ipd := ip.filter (fun c => c ≠ '_')
      let fpd := fp.filter (fun c => c ≠ '_')
      let den : Nat := 10 ^ fpd.length
      let mag : Nat := digitsToNat ipd * den + digitsToNat fpd
      let num : Int := if neg then -(mag : Int) else (mag : Int)
      match m.2 with
      | none => some (.finite (mkRat num den))
      | some ecs =>
        let es := readSign ecs
        if digitsUnd es.2 then
          let p10 : Nat := 10 ^ digitsToNat (es.2.filter (fun c => c ≠ '_'))
          if es.1 then some (.finite (mkRat num (den * p10)))
          else some (.finite (mkRat (num * (p10 : Int)) den))
        else none
    else none

/-- `float(sys.argv[i]) if len(sys.argv) > i else 0.5`: the default when the
argument is absent, the parsed value when it parses, and an uncaught
`ValueError` carrying the offending literal otherwise. -/
def parseOpt : Option String → Except String PyFloat
  | none => .ok (.finite (mkRat 1 2))
  | some lit =>
    match pyFloat? lit with
    | some v => .ok v
    | none => .error lit

/-- The loaded model: its `sr` attribute and the behaviour of its `generate`
method on (text, exaggeration, explicitly-passed cfg_weight). -/
structure Model where
  sr : Nat
  genResult : String → PyFloat → Option PyFloat → Except PyExn Waveform

/-- The external collaborators of one run: accelerator availability, the
outcome of each import statement, the model factory, and the audio writer
(`some size` = file of that size written, `none` = call returned without
creating the file). -/
structure Env where
  cudaAvailable : Bool
  importTorchResult : Except PyExn Unit
  importTTSResult : Except PyExn Unit
  importTorchaudioResult : Except PyExn Unit
  loadResult : String → Except PyExn Model
  saveResult : String → Waveform → Nat → Except PyExn (Option Nat)

/-- `"cuda" if torch.cuda.is_available() else "cpu"` (chatterbox-tts.py). -/
def ctDevice (env : Env) : String :=
  if env.cudaAvailable then "cuda" else "cpu"

/-- The result of one run: the event trace, the process outcome, and the
final filesystem state. -/
structure Run where
  trace : List Event
  outcome : Outcome
  fs : FS
deriving DecidableEq, Repr

/-- Lines 61-63 of chatterbox-tts.py: create the output directory when the
path has a directory part and nothing exists there; returns the new
filesystem and the makedirs events performed. -/
def ctMkStep (fs : FS) (d : String) : Except PyExn (FS × List Event) :=
  if d ≠ "" ∧ pathExists fs d = false then
    match makedirsFS fs d with
    | .error e => .error e
    | .ok fs1 => .ok (fs1, [Event.makedirs d true])
  else .ok (fs, [])

/-- Body of `main` of bin/chatterbox-tts.py after extraction of the
positional arguments (lines 24-72): parse the optional floats (line 26-27,
uncaught `ValueError` on a bad literal), print the banner (33-35), then the
`try` block: import torch and the TTS library (38-39), pick the device (42),
load the model (47), generate (51-55), import torchaudio (58), ensure the
output directory (61-63), save at `model.sr` (65) and print success (67-68);
any exception is printed as `[Chatterbox] ERROR: ...` and the process exits 1
(70-72), otherwise `main` returns and the process exits 0. -/
def ctGo (env : Env) (fs : FS) (text outputPath : String)
    (exagLit cfgLit : Option String) : Run :=
  match parseOpt exagLit with
  | .error lit => ⟨[], .uncaughtValueError lit, fs⟩
  | .ok exaggeration =>
    match parseOpt cfgLit with
    | .error lit => ⟨[], .uncaughtValueError lit, fs⟩
    | .ok cfg =>
      let t0 : List Event :=
        [.print "[Chatterbox] Generating speech...",
         .print ("[Chatterbox] Text: " ++ strTake text 50 ++ "..."),
         .print ("[Chatterbox] Exaggeration: " ++ pyFloatStr exaggeration ++
           ", CFG: " ++ pyFloatStr cfg)]
      match env.importTorchResult with
      | .error e =>
        ⟨t0 ++ [.importTorch, .print ("[Chatterbox] ERROR: " ++ e.msg)], .exit 1, fs⟩
      | .ok _ =>
        match env.importTTSResult with
        | .error e =>
          ⟨t0 ++ [.importTorch, .importTTS,
            .print ("[Chatterbox] ERROR: " ++ e.msg)], .exit 1, fs⟩
        | .ok _ =>
          let device := ctDevice env
          let t1 := t0 ++ [.importTorch, .importTTS,
            .print ("[Chatterbox] Using device: " ++ device),
            .print "[Chatterbox] Loading model...",
            .fromPretrained device]
          match env.loadResult device with
          | .error e => ⟨t1 ++ [.print ("[Chatterbox] ERROR: " ++ e.msg)], .exit 1, fs⟩
          | .ok model =>
            let t2 := t1 ++ [.print "[Chatterbox] Generating audio...",
              .generate text exaggeration (some cfg)]
            match model.genResult text exaggeration (some cfg) with
            | .error e => ⟨t2 ++ [.print ("[Chatterbox] ERROR: " ++ e.msg)], .exit 1, fs⟩
            | .ok wav =>
              let t3 := t2 ++ [.importTorchaudio]
              match env.importTorchaudioResult with
              | .error e => ⟨t3 ++ [.print ("[Chatterbox] ERROR: " ++ e.msg)], .exit 1, fs⟩
              | .ok _ =>
                match ctMkStep fs (dirname outputPath) with
                | .error e =>
                  ⟨t3 ++ [.makedirs (dirname outputPath) true,
                    .print ("[Chatterbox] ERROR: " ++ e.msg)], .exit 1, fs⟩
                | .ok s =>
                  let t4 := t3 ++ s.2 ++ [.readSr model.sr, .save outputPath model.sr]
                  match env.saveResult outputPath wav model.sr with
                  | .error e =>
                    ⟨t4 ++ [.print ("[Chatterbox] ERROR: " ++ e.msg)], .exit 1, s.1⟩
                  | .ok created =>
                    let fs2 := match created with
                      | some size => setFile s.1 outputPath size
                      | none => s.1
                    ⟨t4 ++ [.print ("[Chatterbox] SUCCESS: " ++ outputPath),
                       .readSr model.sr,
                       .print ("[Chatterbox] Sample rate: " ++ Nat.repr model.sr)],
                     .exit 0, fs2⟩

/-- The two `except` clauses of run-chatterbox.py (lines 63-68):
`MemoryError` prints a fixed message and exits 2, any other exception prints
`[Chatterbox] ERROR: {e}` and exits 1. -/
def rcCatch (t : List Event) (fs : FS) (e : PyExn) : Run :=
  match e with
  | .memoryError =>
    ⟨t ++ [.print "[Chatterbox] ERROR: Out of memory. Close some applications and try again."],
     .exit 2, fs⟩
  | .error m => ⟨t ++ [.print ("[Chatterbox] ERROR: " ++ m)], .exit 1, fs⟩

/-- Body of `main` of bin/run-chatterbox.py after extraction of the
positional arguments (lines 17-68): parse the optional float (19, uncaught
`ValueError` on a bad literal), collect garbage (22), print the banner
(24-25), then the `try` block: import torch (28), limit threads (31), import
the TTS library (35), load the model on the fixed device "cpu" (38-39),
generate (44), drop the model and collect (47-48), import torchaudio (51),
`os.makedirs(dirname or ".", exist_ok=True)` (52), save at the fixed rate
24000 (53), then check the file and `sys.exit(0)` printing the size, or print
an error and `sys.exit(1)` (55-61); `MemoryError` exits 2, any other
exception exits 1 (63-68). `sys.exit` raises `SystemExit`, which the
`except` clauses do not catch. -/
def rcGo (env : Env) (fs : FS) (text outputPath : String)
    (exagLit : Option String) : Run :=
  match parseOpt exagLit with
  | .error lit => ⟨[], .uncaughtValueError lit, fs⟩
  | .ok exaggeration =>
    let t0 : List Event :=
      [.gcCollect,
       .print ("[Chatterbox] Text: " ++ strTake text 50 ++ "..."),
       .print ("[Chatterbox] Output: " ++ outputPath)]
    match env.importTorchResult with
    | .error e => rcCatch (t0 ++ [.importTorch]) fs e
    | .ok _ =>
      let t1 := t0 ++ [.importTorch, .setNumThreads 2,
        .print "[Chatterbox] Loading model (this may take a moment)...",
        .importTTS]
      match env.importTTSResult with
      | .error e => rcCatch t1 fs e
      | .ok _ =>
        let t2 := t1 ++ [.fromPretrained "cpu"]
        match env.loadResult "cpu" with
        | .error e => rcCatch t2 fs e
        | .ok model =>
          let t3 := t2 ++ [.print "[Chatterbox] Model loaded, generating audio...",
            .generate text exaggeration none]
          match model.genResult text exaggeration none with
          | .error e => rcCatch t3 fs e
          | .ok wav =>
            let t4 := t3 ++ [.delModel, .gcCollect, .importTorchaudio]
            match env.importTorchaudioResult with
            | .error e => rcCatch t4 fs e
            | .ok _ =>
              let mdir := if dirname outputPath = "" then "." else dirname outputPath
              let t5 := t4 ++ [.makedirs mdir true]
              match makedirsFS fs mdir with
              | .error e => rcCatch t5 fs e
              | .ok fs1 =>
                let t6 := t5 ++ [.save outputPath 24000]
                match env.saveResult outputPath wav 24000 with
                | .error e => rcCatch t6 fs1 e
                | .ok created =>
                  let fs2 := match created with
                    | some size => setFile fs1 outputPath size
                    | none => fs1
                  match getFile? fs2 outputPath with
                  | some size =>
                    ⟨t6 ++ [.print ("[Chatterbox] SUCCESS! Saved " ++ Nat.repr size ++
                       " bytes to " ++ outputPath)], .exit 0, fs2⟩
                  | none =>
                    ⟨t6 ++ [.print "[Chatterbox] ERROR: File not created"], .exit 1, fs2⟩

/-- The usage line of chatterbox-tts.py (line 21). -/
def ctUsage : String :=
  "Usage: python chatterbox-tts.py \"text\" output.wav [exaggeration] [cfg]"

/-- The usage line of run-chatterbox.py (line 14). -/
def rcUsage : String :=
  "Usage: python run-chatterbox.py <text> <output.wav> [exaggeration]"

/-- `main` of bin/chatterbox-tts.py on the full `sys.argv` (element 0 is the
program name): usage + exit 1 when fewer than two positional arguments
(lines 20-22), otherwise the body on text, output path and the optional
literals (24-27). -/
def chatterboxTTSMain (env : Env) (fs : FS) (argv : List String) : Run :=
  if argv.length < 3 then ⟨[.print ctUsage], .exit 1, fs⟩
  else
    ctGo env fs (argv.getD 1 "") (argv.getD 2 "")
      (if argv.length > 3 then some (argv.getD 3 "") else none)
      (if argv.length > 4 then some (argv.getD 4 "") else none)

/-- `main` of bin/run-chatterbox.py on the full `sys.argv` (lines 13-19). -/
def runChatterboxMain (env : Env) (fs : FS) (argv : List String) : Run :=
  if argv.length < 3 then ⟨[.print rcUsage], .exit 1, fs⟩
  else
    rcGo env fs (argv.getD 1 "") (argv.getD 2 "")
      (if argv.length > 3 then some (argv.getD 3 "") else none)

/-! ### Concrete collaborator instances used by the witnesses -/

/-- A one-sample waveform. -/
def wavB : Waveform := ⟨[0]⟩

/-- A model whose `generate` always succeeds, reporting `sr = 22050`. -/
def modelB : Model := { sr := 22050, genResult := fun _ _ _ => .ok wavB }

/-- A fully benign environment: accelerator available, all imports succeed,
the factory returns `modelB`, the writer writes a 42-byte file. -/
def envB : Env :=
  { cudaAvailable := true
    importTorchResult := .ok ()
    importTTSResult := .ok ()
    importTorchaudioResult := .ok ()
    loadResult := fun _ => .ok modelB
    saveResult := fun _ _ _ => .ok (some 42) }

/-- `envB` without an accelerator. -/
def envNoCuda : Env := { envB with cudaAvailable := false }

/-- A model whose `generate` raises `MemoryError`. -/
def modelOOM : Model := { sr := 22050, genResult := fun _ _ _ => .error .memoryError }

/-- `envB` with the out-of-memory model. -/
def envOOM : Env := { envB with loadResult := fun _ => .ok modelOOM }

/-- A model whose `generate` raises a generic exception with message "boom". -/
def modelBoom : Model := { sr := 22050, genResult := fun _ _ _ => .error (.error "boom") }

/-- `envB` with the failing model. -/
def envBoom : Env := { envB with loadResult := fun _ => .ok modelBoom }

/-- `envB` with a writer that returns without creating the file. -/
def envNoFile : Env := { envB with saveResult := fun _ _ _ => .ok none }

/-- The empty filesystem. -/
def fs0 : FS := ⟨[], []⟩

/-- A filesystem whose only entry is a regular file named "sub". -/
def fsFileAtSub : FS := ⟨[], [("sub", 7)]⟩

/-- Does the event record an `os.makedirs` call? -/
def isMkdirEv : Event → Bool
  | .makedirs _ _ => true
  | _ => false

/-- Does the event record a call to the audio writer? -/
def isSaveEv : Event → Bool
  | .save _ _ => true
  | _ => false

/-! ### Claim C1 -/

/-- C1: with fewer than 2 positional arguments (argv length < 3) each script
prints exactly its usage line and exits with status 1; no TTS-library import
and no `from_pretrained` call occurs. -/
theorem c1_usage_exit (env : Env) (fs : FS) (argv : List String)
    (h : argv.length < 3) :
    (chatterboxTTSMain env fs argv).trace = [.print ctUsage] ∧
    (chatterboxTTSMain env fs argv).outcome = .exit 1 ∧
    (runChatterboxMain env fs argv).trace = [.print rcUsage] ∧
    (runChatterboxMain env fs argv).outcome = .exit 1 ∧
    Event.importTTS ∉ (chatterboxTTSMain env fs argv).trace ∧
    Event.importTTS ∉ (runChatterboxMain env fs argv).trace ∧
    (∀ d, Event.fromPretrained d ∉ (chatterboxTTSMain env fs argv).trace) ∧
    (∀ d, Event.fromPretrained d ∉ (runChatterboxMain env fs argv).trace) := by
  simp [chatterboxTTSMain, runChatterboxMain, h]

/-- Witness for C1 at `argv = ["prog", "hello"]`. -/
theorem c1_usage_exit_witness :
    (["prog", "hello"] : List String).length < 3 ∧
    (chatterboxTTSMain envB fs0 ["prog", "hello"]).outcome = .exit 1 ∧
    (runChatterboxMain envB fs0 ["prog", "hello"]).outcome = .exit 1 :=
  ⟨by decide, (c1_usage_exit envB fs0 ["prog", "hello"] (by decide)).2.1,
    (c1_usage_exit envB fs0 ["prog", "hello"] (by decide)).2.2.2.1⟩

/-! ### Trace-shape lemmas (hold for every environment) -/

/-- The directory-creation step only ever emits `makedirs` events. -/
theorem ctMkStep_snd_mem (fs : FS) (d : String) (s : FS × List Event)
    (h : ctMkStep fs d = .ok s) (ev : Event) (hm : ev ∈ s.2) :
    ev = Event.makedirs d true := by
  unfold ctMkStep at h
  split at h
  · cases h2 : makedirsFS fs d <;> rw [h2] at h
    · exact absurd h (by simp)
    · rw [Except.ok.injEq] at h
      subst h
      simpa using hm
  · rw [Except.ok.injEq] at h
    subst h
    simp at hm

/-- Every `generate` event in a chatterbox-tts.py run carries the script's
text and the two parsed tuning values. -/
theorem ctGo_generate_mem (env : Env) (fs : FS) (text o : String)
    (elit clit : Option String) (vx vy : PyFloat)
    (hx : parseOpt elit = .ok vx) (hy : parseOpt clit = .ok vy)
    (t2 : String) (e : PyFloat) (c : Option PyFloat)
    (hmem : Event.generate t2 e c ∈ (ctGo env fs text o elit clit).trace) :
    t2 = text ∧ e = vx ∧ c = some vy := by
  simp only [ctGo, hx, hy] at hmem
  repeat' split at hmem
  all_goals simp_all
  all_goals
    rcases hmem with hmem | hmem
    · exact hmem
    · exact absurd (ctMkStep_snd_mem _ _ _ (by assumption) _ hmem) (by simp)

/-- Every `generate` event in a run-chatterbox.py run carries the script's
text, the parsed exaggeration, and no explicit cfg_weight. -/
theorem rcGo_generate_mem (env : Env) (fs : FS) (text o : String)
    (elit : Option String) (vx : PyFloat) (hx : parseOpt elit = .ok vx)
    (t2 : String) (e : PyFloat) (c : Option PyFloat)
    (hmem : Event.generate t2 e c ∈ (rcGo env fs text o elit).trace) :
    t2 = text ∧ e = vx ∧ c = none := by
  simp only [rcGo, hx, rcCatch] at hmem
  repeat' split at hmem
  all_goals simp_all

/-- Every `from_pretrained` call in a run-chatterbox.py run uses device "cpu". -/
theorem rcGo_fromPretrained_mem (env : Env) (fs : FS) (text o : String)
    (elit : Option String) (d : String)
    (hmem : Event.fromPretrained d ∈ (rcGo env fs text o elit).trace) :
    d = "cpu" := by
  simp only [rcGo, rcCatch] at hmem
  repeat' split at hmem
  all_goals simp_all

/-- Every audio-writer call in a run-chatterbox.py run uses sample rate 24000. -/
theorem rcGo_save_mem (env : Env) (fs : FS) (text o : String)
    (elit : Option String) (p : String) (r : Nat)
    (hmem : Event.save p r ∈ (rcGo env fs text o elit).trace) :
    p = o ∧ r = 24000 := by
  simp only [rcGo, rcCatch] at hmem
  repeat' split at hmem
  all_goals simp_all

/-- run-chatterbox.py never reads the model's `sr` attribute. -/
theorem rcGo_no_readSr (env : Env) (fs : FS) (text o : String)
    (elit : Option String) (n : Nat)
    (hmem : Event.readSr n ∈ (rcGo env fs text o elit).trace) : False := by
  simp only [rcGo, rcCatch] at hmem
  repeat' split at hmem
  all_goals simp_all

/-- Every `from_pretrained` call in a chatterbox-tts.py run uses the
availability-selected device. -/
theorem ctGo_fromPretrained_mem (env : Env) (fs : FS) (text o : String)
    (elit clit : Option String) (d : String)
    (hmem : Event.fromPretrained d ∈ (ctGo env fs text o elit clit).trace) :
    d = ctDevice env := by
  simp only [ctGo] at hmem
  repeat' split at hmem
  all_goals simp_all
  all_goals
    rcases hmem with hmem | hmem
    · exact hmem
    · exact absurd (ctMkStep_snd_mem _ _ _ (by assumption) _ hmem) (by simp)

/-! ### Claim C2 -/

/-- C2: when the optional numeric arguments are omitted, `generate` is called
with exaggeration 1/2 and (first variant) cfg_weight 1/2; when they are
supplied, the exact parsed values are passed unmodified; the literals "0.8"
and "0.3" parse to 4/5 and 3/10. -/
theorem c2_tuning_values (env : Env) (fs : FS) (p t o ex cf : String)
    (vx vy : PyFloat)
    (hx : pyFloat? ex = some vx) (hy : pyFloat? cf = some vy) :
    (∀ t2 e c, Event.generate t2 e c ∈ (chatterboxTTSMain env fs [p, t, o]).trace →
        t2 = t ∧ e = PyFloat.finite (mkRat 1 2) ∧ c = some (PyFloat.finite (mkRat 1 2))) ∧
    (∀ t2 e c, Event.generate t2 e c ∈ (chatterboxTTSMain env fs [p, t, o, ex, cf]).trace →
        t2 = t ∧ e = vx ∧ c = some vy) ∧
    (∀ t2 e c, Event.generate t2 e c ∈ (runChatterboxMain env fs [p, t, o]).trace →
        t2 = t ∧ e = PyFloat.finite (mkRat 1 2) ∧ c = none) ∧
    (∀ t2 e c, Event.generate t2 e c ∈ (runChatterboxMain env fs [p, t, o, ex]).trace →
        t2 = t ∧ e = vx ∧ c = none) ∧
    pyFloat? "0.8" = some (PyFloat.finite (mkRat 4 5)) ∧
    pyFloat? "0.3" = some (PyFloat.finite (mkRat 3 10)) := by
  have hex : parseOpt (some ex) = .ok vx := by simp [parseOpt, hx]
  have hcf : parseOpt (some cf) = .ok vy := by simp [parseOpt, hy]
  refine ⟨?_, ?_, ?_, ?_, by decide, by decide⟩
  · intro t2 e c hm
    exact ctGo_generate_mem env fs t o none none _ _ rfl rfl t2 e c hm
  · intro t2 e c hm
    exact ctGo_generate_mem env fs t o (some ex) (some cf) _ _ hex hcf t2 e c hm
  · intro t2 e c hm
    exact rcGo_generate_mem env fs t o none _ rfl t2 e c hm
  · intro t2 e c hm
    exact rcGo_generate_mem env fs t o (some ex) _ hex t2 e c hm

/-- Witness for C2: a benign run on arguments "0.8" "0.3" does call `generate`
with exactly 4/5 and 3/10, and a run with the arguments omitted uses 1/2. -/
theorem c2_tuning_values_witness :
    pyFloat? "0.8" = some (PyFloat.finite (mkRat 4 5)) ∧
    Event.generate "t" (PyFloat.finite (mkRat 4 5)) (some (PyFloat.finite (mkRat 3 10))) ∈
      (chatterboxTTSMain envB fs0 ["p", "t", "o", "0.8", "0.3"]).trace ∧
    Event.generate "t" (PyFloat.finite (mkRat 1 2)) none ∈
      (runChatterboxMain envB fs0 ["p", "t", "o"]).trace ∧
    ("t" = "t" ∧ PyFloat.finite (mkRat 4 5) = PyFloat.finite (mkRat 4 5) ∧
      (some (PyFloat.finite (mkRat 3 10)) : Option PyFloat) =
        some (PyFloat.finite (mkRat 3 10))) :=
  ⟨by decide, by decide, by decide,
    (c2_tuning_values envB fs0 "p" "t" "o" "0.8" "0.3" (PyFloat.finite (mkRat 4 5))
      (PyFloat.finite (mkRat 3 10)) (by decide) (by decide)).2.1 "t"
      (PyFloat.finite (mkRat 4 5)) (some (PyFloat.finite (mkRat 3 10))) (by decide)⟩

/-! ### Claim C3 -/

/-- C3: run-chatterbox.py always loads the model with device "cpu" and always
saves at the fixed rate 24000, and it never reads the model's `sr` attribute,
whatever the environment, filesystem and arguments. -/
theorem c3_cpu_fixed_rate (env : Env) (fs : FS) (argv : List String) :
    (∀ d, Event.fromPretrained d ∈ (runChatterboxMain env fs argv).trace → d = "cpu") ∧
    (∀ q r, Event.save q r ∈ (runChatterboxMain env fs argv).trace → r = 24000) ∧
    (∀ n, Event.readSr n ∉ (runChatterboxMain env fs argv).trace) := by
  unfold runChatterboxMain
  split
  · exact ⟨fun d h => by simp at h, fun q r h => by simp at h, fun n h => by simp at h⟩
  · exact ⟨fun d h => rcGo_fromPretrained_mem _ _ _ _ _ _ h,
      fun q r h => (rcGo_save_mem _ _ _ _ _ _ _ h).2,
      fun n h => rcGo_no_readSr _ _ _ _ _ _ h⟩

/-- Witness for C3 on a concrete benign run: the load and save events occur
with "cpu" and 24000, and no `sr` read occurs (even though the model reports
sr = 22050). -/
theorem c3_cpu_fixed_rate_witness :
    Event.fromPretrained "cpu" ∈ (runChatterboxMain envB fs0 ["p", "t", "o"]).trace ∧
    Event.save "o" 24000 ∈ (runChatterboxMain envB fs0 ["p", "t", "o"]).trace ∧
    modelB.sr = 22050 ∧
    (24000 : Nat) = 24000 ∧
    Event.readSr 22050 ∉ (runChatterboxMain envB fs0 ["p", "t", "o"]).trace :=
  ⟨by decide, by decide, by decide,
    (c3_cpu_fixed_rate envB fs0 ["p", "t", "o"]).2.1 "o" 24000 (by decide),
    (c3_cpu_fixed_rate envB fs0 ["p", "t", "o"]).2.2 22050⟩

/-! ### Claim C9 -/

/-- C9: chatterbox-tts.py passes device "cuda" to the model factory exactly
when the accelerator is available and "cpu" otherwise; under working imports
the factory call with that device actually occurs. -/
theorem c9_device_by_availability (env : Env) (fs : FS) (argv : List String)
    (p t o : String) :
    (∀ d, Event.fromPretrained d ∈ (chatterboxTTSMain env fs argv).trace →
        d = (if env.cudaAvailable then "cuda" else "cpu")) ∧
    (env.importTorchResult = .ok () → env.importTTSResult = .ok () →
      Event.fromPretrained (if env.cudaAvailable then "cuda" else "cpu") ∈
        (chatterboxTTSMain env fs [p, t, o]).trace) := by
  constructor
  · unfold chatterboxTTSMain
    split
    · intro d h
      simp at h
    · intro d h
      exact ctGo_fromPretrained_mem _ _ _ _ _ _ _ h
  · intro h1 h2
    show Event.fromPretrained (if env.cudaAvailable then "cuda" else "cpu") ∈
      (ctGo env fs t o none none).trace
    simp only [ctGo, parseOpt, h1, h2, ctDevice]
    repeat' split
    all_goals simp

/-- Witness for C9: with the accelerator available the factory is called with
"cuda"; without it, with "cpu". -/
theorem c9_device_by_availability_witness :
    envB.importTorchResult = .ok () ∧
    Event.fromPretrained "cuda" ∈ (chatterboxTTSMain envB fs0 ["p", "t", "o"]).trace ∧
    Event.fromPretrained "cpu" ∈ (chatterboxTTSMain envNoCuda fs0 ["p", "t", "o"]).trace :=
  ⟨rfl,
    (c9_device_by_availability envB fs0 [] "p" "t" "o").2 rfl rfl,
    (c9_device_by_availability envNoCuda fs0 [] "p" "t" "o").2 rfl rfl⟩

/-! ### Claim C10 -/

/-- `getD` below the cut agrees between a list and its truncation. -/
theorem getD_take_eq (l : List String) (n i : Nat) (hi : i < n) :
    (l.take n).getD i "" = l.getD i "" := by
  induction l generalizing n i with
  | nil => simp
  | cons a as ih =>
    cases n with
    | zero => omega
    | succ m =>
      cases i with
      | zero => simp
      | succ j => simpa using ih m j (by omega)

/-- C10: arguments beyond those read are ignored: two run-chatterbox.py
invocations agreeing on the first four argv entries (program name, text,
output, exaggeration) produce identical runs, and two chatterbox-tts.py
invocations agreeing on the first five argv entries produce identical runs —
same trace (prints and collaborator calls), same outcome, same filesystem. -/
theorem c10_extra_args_ignored (env : Env) (fs : FS) (a1 a2 b1 b2 : List String)
    (ha1 : 4 ≤ a1.length) (ha2 : 4 ≤ a2.length) (hta : a1.take 4 = a2.take 4)
    (hb1 : 5 ≤ b1.length) (hb2 : 5 ≤ b2.length) (htb : b1.take 5 = b2.take 5) :
    runChatterboxMain env fs a1 = runChatterboxMain env fs a2 ∧
    chatterboxTTSMain env fs b1 = chatterboxTTSMain env fs b2 := by
  have ga : ∀ i, i < 4 → a1.getD i "" = a2.getD i "" := by
    intro i hi
    rw [← getD_take_eq a1 4 i hi, ← getD_take_eq a2 4 i hi, hta]
  have gb : ∀ i, i < 5 → b1.getD i "" = b2.getD i "" := by
    intro i hi
    rw [← getD_take_eq b1 5 i hi, ← getD_take_eq b2 5 i hi, htb]
  constructor
  · unfold runChatterboxMain
    rw [if_neg (by omega : ¬ a1.length < 3), if_neg (by omega : ¬ a2.length < 3),
      if_pos (by omega : a1.length > 3), if_pos (by omega : a2.length > 3),
      ga 1 (by omega), ga 2 (by omega), ga 3 (by omega)]
  · unfold chatterboxTTSMain
    rw [if_neg (by omega : ¬ b1.length < 3), if_neg (by omega : ¬ b2.length < 3),
      if_pos (by omega : b1.length > 3), if_pos (by omega : b2.length > 3),
      if_pos (by omega : b1.length > 4), if_pos (by omega : b2.length > 4),
      gb 1 (by omega), gb 2 (by omega), gb 3 (by omega), gb 4 (by omega)]

/-- Witness for C10: adding or changing a trailing unused argument leaves the
whole run unchanged. -/
theorem c10_extra_args_ignored_witness :
    runChatterboxMain envB fs0 ["p", "t", "o", "0.8"] =
      runChatterboxMain envB fs0 ["p", "t", "o", "0.8", "junk"] ∧
    chatterboxTTSMain envB fs0 ["p", "t", "o", "0.8", "0.3", "x"] =
      chatterboxTTSMain envB fs0 ["p", "t", "o", "0.8", "0.3", "y"] :=
  c10_extra_args_ignored envB fs0 ["p", "t", "o", "0.8"] ["p", "t", "o", "0.8", "junk"]
    ["p", "t", "o", "0.8", "0.3", "x"] ["p", "t", "o", "0.8", "0.3", "y"]
    (by decide) (by decide) (by decide) (by decide) (by decide) (by decide)

/-! ### Claim C6 -/

/-- C6: when an optional numeric argument is not a valid float literal, the
`float()` call raises an uncaught ValueError before anything is printed: the
process dies with the offending literal, the trace is empty, so no
`[Chatterbox] ERROR:` line is printed and no model load is attempted. This
also holds for the cfg position of the first variant when the exaggeration
literal itself parses.  The first conjuncts pin the `float()` model: signed
infinities, NaN and PEP 515 underscore literals are accepted, a leading
underscore is rejected. -/
theorem c6_bad_float_uncaught (env : Env) (fs : FS) (p t o bad good : String)
    (v : PyFloat) (hb : pyFloat? bad = none) (hg : pyFloat? good = some v) :
    pyFloat? "inf" = some (PyFloat.inf false) ∧
    pyFloat? "-Infinity" = some (PyFloat.inf true) ∧
    pyFloat? "nan" = some PyFloat.nan ∧
    pyFloat? "1_5" = some (PyFloat.finite (mkRat 15 1)) ∧
    pyFloat? "_5" = none ∧
    (chatterboxTTSMain env fs [p, t, o, bad]).outcome = .uncaughtValueError bad ∧
    (chatterboxTTSMain env fs [p, t, o, bad]).trace = [] ∧
    (runChatterboxMain env fs [p, t, o, bad]).outcome = .uncaughtValueError bad ∧
    (runChatterboxMain env fs [p, t, o, bad]).trace = [] ∧
    (chatterboxTTSMain env fs [p, t, o, good, bad]).outcome = .uncaughtValueError bad ∧
    (chatterboxTTSMain env fs [p, t, o, good, bad]).trace = [] ∧
    (∀ s, Event.print ("[Chatterbox] ERROR: " ++ s) ∉
      (chatterboxTTSMain env fs [p, t, o, bad]).trace) ∧
    (∀ d, Event.fromPretrained d ∉ (chatterboxTTSMain env fs [p, t, o, bad]).trace) ∧
    (∀ s, Event.print ("[Chatterbox] ERROR: " ++ s) ∉
      (runChatterboxMain env fs [p, t, o, bad]).trace) ∧
    (∀ d, Event.fromPretrained d ∉ (runChatterboxMain env fs [p, t, o, bad]).trace) := by
  have e1 : chatterboxTTSMain env fs [p, t, o, bad] = ctGo env fs t o (some bad) none := rfl
  have e2 : runChatterboxMain env fs [p, t, o, bad] = rcGo env fs t o (some bad) := rfl
  have e3 : chatterboxTTSMain env fs [p, t, o, good, bad] =
      ctGo env fs t o (some good) (some bad) := rfl
  refine ⟨by decide, by decide, by decide, by decide, by decide, ?_⟩
  rw [e1, e2, e3]
  simp [ctGo, rcGo, parseOpt, hb, hg]

/-- Witness for C6 at the literal "abc" (with "0.8" parsing fine). -/
theorem c6_bad_float_uncaught_witness :
    pyFloat? "abc" = none ∧
    (chatterboxTTSMain envB fs0 ["p", "t", "o", "abc"]).outcome =
      .uncaughtValueError "abc" ∧
    (runChatterboxMain envB fs0 ["p", "t", "o", "abc"]).trace = [] ∧
    (chatterboxTTSMain envB fs0 ["p", "t", "o", "0.8", "abc"]).outcome =
      .uncaughtValueError "abc" :=
  ⟨by decide,
    (c6_bad_float_uncaught envB fs0 "p" "t" "o" "abc" "0.8" (PyFloat.finite (mkRat 4 5))
      (by decide) (by decide)).2.2.2.2.2.1,
    (c6_bad_float_uncaught envB fs0 "p" "t" "o" "abc" "0.8" (PyFloat.finite (mkRat 4 5))
      (by decide) (by decide)).2.2.2.2.2.2.2.2.1,
    (c6_bad_float_uncaught envB fs0 "p" "t" "o" "abc" "0.8" (PyFloat.finite (mkRat 4 5))
      (by decide) (by decide)).2.2.2.2.2.2.2.2.2.1⟩

/-! ### Small filesystem lemmas -/

/-- Reading back the file just written yields its size. -/
theorem getFile?_setFile (fs : FS) (q : String) (n : Nat) :
    getFile? (setFile fs q n) q = some n := by
  unfold getFile? setFile
  rw [List.find?_cons_of_pos _ (by simp)]
  rfl

/-- Walking a directory chain never changes the regular files. -/
theorem mkdirChain_files (l : List String) (fs fs1 : FS)
    (h : mkdirChain fs l = .ok fs1) : fs1.files = fs.files := by
  induction l generalizing fs with
  | nil =>
    simp only [mkdirChain, Except.ok.injEq] at h
    subst h
    rfl
  | cons q rest ih =>
    simp only [mkdirChain] at h
    split at h
    · exact ih fs h
    · split at h
      · exact absurd h (by simp)
      · exact ih ⟨q :: fs.dirs, fs.files⟩ h

/-- `os.makedirs` never changes the regular files. -/
theorem makedirsFS_files (fs : FS) (d : String) (fs1 : FS)
    (h : makedirsFS fs d = .ok fs1) : fs1.files = fs.files :=
  mkdirChain_files (ancestors d ++ [d]) fs fs1 h

/-- When no regular file occupies any component of the chain, the walk
succeeds, preserves the files, only grows the directories, and afterwards
every component of the chain is a directory. -/
theorem mkdirChain_spec (l : List String) (fs : FS)
    (h : ∀ a ∈ l, hasFile fs a = false) :
    ∃ fs1, mkdirChain fs l = .ok fs1 ∧ fs1.files = fs.files ∧
      (∀ q, q ∈ fs.dirs → q ∈ fs1.dirs) ∧ (∀ q ∈ l, q ∈ fs1.dirs) := by
  induction l generalizing fs with
  | nil => exact ⟨fs, rfl, rfl, fun q hq => hq, by simp⟩
  | cons q rest ih =>
    have hq : hasFile fs q = false := h q (by simp)
    have hrest : ∀ a ∈ rest, hasFile fs a = false := fun a ha => h a (by simp [ha])
    by_cases hc : q ∈ fs.dirs
    · obtain ⟨fs1, hrun, hfiles, hmono, hall⟩ := ih fs hrest
      refine ⟨fs1, ?_, hfiles, hmono, ?_⟩
      · simp only [mkdirChain]
        rw [if_pos hc]
        exact hrun
      · intro a ha
        rcases List.mem_cons.mp ha with rfl | ha2
        · exact hmono a hc
        · exact hall a ha2
    · have hrest2 : ∀ a ∈ rest, hasFile (⟨q :: fs.dirs, fs.files⟩ : FS) a = false := by
        intro a ha
        simpa [hasFile] using hrest a ha
      obtain ⟨fs1, hrun, hfiles, hmono, hall⟩ := ih ⟨q :: fs.dirs, fs.files⟩ hrest2
      refine ⟨fs1, ?_, hfiles, ?_, ?_⟩
      · simp only [mkdirChain]
        rw [if_neg hc, if_neg (by simp [hq])]
        exact hrun
      · intro a ha
        exact hmono a (by simp [ha])
      · intro a ha
        rcases List.mem_cons.mp ha with rfl | ha2
        · exact hmono a (by simp)
        · exact hall a ha2

/-! ### Claim C4 (corrected) -/

/-- Counterexample to C4 as stated: when `generate` raises `MemoryError` in
run-chatterbox.py the process exits with status 2, not 1. -/
theorem c4_counterexample :
    (runChatterboxMain envOOM fs0 ["p", "t", "o"]).outcome = .exit 2 ∧
    (runChatterboxMain envOOM fs0 ["p", "t", "o"]).outcome ≠ .exit 1 := by
  decide

/-- C4 (amended): when `generate` raises, the save call is never reached in
either script, no output file is created and the filesystem is untouched; for
any exception other than `MemoryError` both scripts print an error line
containing the exception message and exit 1; on `MemoryError` the first
variant still exits 1 while the second prints its fixed out-of-memory line
and exits 2. -/
theorem c4_generate_raises (env : Env) (fs : FS) (p t o : String) (m : Model)
    (msg : String)
    (h1 : env.importTorchResult = .ok ()) (h2 : env.importTTSResult = .ok ())
    (h3 : env.loadResult (ctDevice env) = .ok m) (h4 : env.loadResult "cpu" = .ok m) :
    ((∀ e c, m.genResult t e c = .error (.error msg)) →
      (chatterboxTTSMain env fs [p, t, o]).outcome = .exit 1 ∧
      Event.print ("[Chatterbox] ERROR: " ++ msg) ∈
        (chatterboxTTSMain env fs [p, t, o]).trace ∧
      (∀ q r, Event.save q r ∉ (chatterboxTTSMain env fs [p, t, o]).trace) ∧
      (chatterboxTTSMain env fs [p, t, o]).fs = fs ∧
      (runChatterboxMain env fs [p, t, o]).outcome = .exit 1 ∧
      Event.print ("[Chatterbox] ERROR: " ++ msg) ∈
        (runChatterboxMain env fs [p, t, o]).trace ∧
      (∀ q r, Event.save q r ∉ (runChatterboxMain env fs [p, t, o]).trace) ∧
      (runChatterboxMain env fs [p, t, o]).fs = fs) ∧
    ((∀ e c, m.genResult t e c = .error .memoryError) →
      (chatterboxTTSMain env fs [p, t, o]).outcome = .exit 1 ∧
      (∀ q r, Event.save q r ∉ (chatterboxTTSMain env fs [p, t, o]).trace) ∧
      (chatterboxTTSMain env fs [p, t, o]).fs = fs ∧
      (runChatterboxMain env fs [p, t, o]).outcome = .exit 2 ∧
      Event.print
          "[Chatterbox] ERROR: Out of memory. Close some applications and try again." ∈
        (runChatterboxMain env fs [p, t, o]).trace ∧
      (∀ q r, Event.save q r ∉ (runChatterboxMain env fs [p, t, o]).trace) ∧
      (runChatterboxMain env fs [p, t, o]).fs = fs) := by
  have e1 : chatterboxTTSMain env fs [p, t, o] = ctGo env fs t o none none := rfl
  have e2 : runChatterboxMain env fs [p, t, o] = rcGo env fs t o none := rfl
  rw [e1, e2]
  constructor
  · intro hg
    simp [ctGo, rcGo, rcCatch, parseOpt, PyExn.msg, h1, h2, h3, h4, hg]
  · intro hg
    simp [ctGo, rcGo, rcCatch, parseOpt, PyExn.msg, h1, h2, h3, h4, hg]

/-- Witness for C4 (amended): the generic branch at message "boom", and the
out-of-memory branch with its fixed line, exit code 2, and no save call. -/
theorem c4_generate_raises_witness :
    envBoom.importTorchResult = .ok () ∧
    (chatterboxTTSMain envBoom fs0 ["p", "t", "o"]).outcome = .exit 1 ∧
    Event.print ("[Chatterbox] ERROR: " ++ "boom") ∈
      (runChatterboxMain envBoom fs0 ["p", "t", "o"]).trace ∧
    (runChatterboxMain envOOM fs0 ["p", "t", "o"]).outcome = .exit 2 ∧
    Event.print
        "[Chatterbox] ERROR: Out of memory. Close some applications and try again." ∈
      (runChatterboxMain envOOM fs0 ["p", "t", "o"]).trace ∧
    Event.save "o" 24000 ∉ (runChatterboxMain envOOM fs0 ["p", "t", "o"]).trace ∧
    Event.save "o" 22050 ∉ (chatterboxTTSMain envOOM fs0 ["p", "t", "o"]).trace :=
  ⟨rfl,
    ((c4_generate_raises envBoom fs0 "p" "t" "o" modelBoom "boom"
      rfl rfl rfl rfl).1 (fun _ _ => rfl)).1,
    ((c4_generate_raises envBoom fs0 "p" "t" "o" modelBoom "boom"
      rfl rfl rfl rfl).1 (fun _ _ => rfl)).2.2.2.2.2.1,
    ((c4_generate_raises envOOM fs0 "p" "t" "o" modelOOM "boom"
      rfl rfl rfl rfl).2 (fun _ _ => rfl)).2.2.2.1,
    ((c4_generate_raises envOOM fs0 "p" "t" "o" modelOOM "boom"
      rfl rfl rfl rfl).2 (fun _ _ => rfl)).2.2.2.2.1,
    ((c4_generate_raises envOOM fs0 "p" "t" "o" modelOOM "boom"
      rfl rfl rfl rfl).2 (fun _ _ => rfl)).2.2.2.2.2.1 "o" 24000,
    ((c4_generate_raises envOOM fs0 "p" "t" "o" modelOOM "boom"
      rfl rfl rfl rfl).2 (fun _ _ => rfl)).2.1 "o" 22050⟩

/-! ### Claim C5 -/

/-- C5: exit-code mapping of both scripts: 1 on missing arguments; 0 on a
fully successful run; on memory exhaustion during generation the first
variant still exits 1 while the second exits 2; on a generic exception both
exit 1. -/
theorem c5_exit_code_mapping (env : Env) (fs : FS) (p t o : String) (m : Model)
    (wav : Waveform) (s : FS × List Event) (fs1 : FS) (sz : Nat)
    (created : Option Nat) :
    (∀ argv : List String, argv.length < 3 →
      (chatterboxTTSMain env fs argv).outcome = .exit 1 ∧
      (runChatterboxMain env fs argv).outcome = .exit 1) ∧
    (env.importTorchResult = .ok () → env.importTTSResult = .ok () →
     env.importTorchaudioResult = .ok () →
     env.loadResult (ctDevice env) = .ok m → env.loadResult "cpu" = .ok m →
     (∀ e c, m.genResult t e c = .ok wav) →
     ctMkStep fs (dirname o) = .ok s →
     makedirsFS fs (if dirname o = "" then "." else dirname o) = .ok fs1 →
     env.saveResult o wav m.sr = .ok created →
     env.saveResult o wav 24000 = .ok (some sz) →
      (chatterboxTTSMain env fs [p, t, o]).outcome = .exit 0 ∧
      (runChatterboxMain env fs [p, t, o]).outcome = .exit 0) ∧
    (env.importTorchResult = .ok () → env.importTTSResult = .ok () →
     env.loadResult (ctDevice env) = .ok m → env.loadResult "cpu" = .ok m →
     (∀ e c, m.genResult t e c = .error .memoryError) →
      (chatterboxTTSMain env fs [p, t, o]).outcome = .exit 1 ∧
      (runChatterboxMain env fs [p, t, o]).outcome = .exit 2) ∧
    (∀ msg, env.importTorchResult = .ok () → env.importTTSResult = .ok () →
     env.loadResult (ctDevice env) = .ok m → env.loadResult "cpu" = .ok m →
     (∀ e c, m.genResult t e c = .error (.error msg)) →
      (chatterboxTTSMain env fs [p, t, o]).outcome = .exit 1 ∧
      (runChatterboxMain env fs [p, t, o]).outcome = .exit 1) := by
  have e1 : chatterboxTTSMain env fs [p, t, o] = ctGo env fs t o none none := rfl
  have e2 : runChatterboxMain env fs [p, t, o] = rcGo env fs t o none := rfl
  refine ⟨?_, ?_, ?_, ?_⟩
  · intro argv h
    simp [chatterboxTTSMain, runChatterboxMain, h]
  · intro h1 h2 h3 hl hl2 hg hmk hmk2 hs hs2
    rw [e1, e2]
    constructor
    · simp [ctGo, parseOpt, h1, h2, h3, hl, hg, hmk, hs]
    · simp [rcGo, parseOpt, h1, h2, h3, hl2, hg, hmk2, hs2, getFile?_setFile]
  · intro h1 h2 hl hl2 hg
    rw [e1, e2]
    constructor
    · simp [ctGo, parseOpt, h1, h2, hl, hg]
    · simp [rcGo, rcCatch, parseOpt, h1, h2, hl2, hg]
  · intro msg h1 h2 hl hl2 hg
    rw [e1, e2]
    constructor
    · simp [ctGo, parseOpt, h1, h2, hl, hg]
    · simp [rcGo, rcCatch, parseOpt, h1, h2, hl2, hg]

/-- Witness for C5: concrete runs hitting the 0, 1 and 2 exit codes. -/
theorem c5_exit_code_mapping_witness :
    (chatterboxTTSMain envB fs0 ["p", "t", "o"]).outcome = .exit 0 ∧
    (runChatterboxMain envB fs0 ["p", "t", "o"]).outcome = .exit 0 ∧
    (chatterboxTTSMain envOOM fs0 ["p", "t", "o"]).outcome = .exit 1 ∧
    (runChatterboxMain envOOM fs0 ["p", "t", "o"]).outcome = .exit 2 ∧
    (chatterboxTTSMain envB fs0 ["p"]).outcome = .exit 1 ∧
    (runChatterboxMain envB fs0 ["p"]).outcome = .exit 1 :=
  ⟨((c5_exit_code_mapping envB fs0 "p" "t" "o" modelB wavB (fs0, []) ⟨["."], []⟩ 42
      (some 42)).2.1 rfl rfl rfl rfl rfl (fun _ _ => rfl) rfl rfl
      rfl rfl).1,
   ((c5_exit_code_mapping envB fs0 "p" "t" "o" modelB wavB (fs0, []) ⟨["."], []⟩ 42
      (some 42)).2.1 rfl rfl rfl rfl rfl (fun _ _ => rfl) rfl rfl
      rfl rfl).2,
   ((c5_exit_code_mapping envOOM fs0 "p" "t" "o" modelOOM wavB (fs0, []) ⟨["."], []⟩ 42
      (some 42)).2.2.1 rfl rfl rfl rfl (fun _ _ => rfl)).1,
   ((c5_exit_code_mapping envOOM fs0 "p" "t" "o" modelOOM wavB (fs0, []) ⟨["."], []⟩ 42
      (some 42)).2.2.1 rfl rfl rfl rfl (fun _ _ => rfl)).2,
   ((c5_exit_code_mapping envB fs0 "p" "t" "o" modelB wavB (fs0, []) ⟨["."], []⟩ 42
      (some 42)).1 ["p"] (by decide)).1,
   ((c5_exit_code_mapping envB fs0 "p" "t" "o" modelB wavB (fs0, []) ⟨["."], []⟩ 42
      (some 42)).1 ["p"] (by decide)).2⟩

/-! ### Claim C7 (corrected) -/

/-- Counterexample to C7 as stated: with a regular file occupying the parent
path "sub" (so the parent directory does not exist), a chatterbox-tts.py run
that reaches the save call performs no `makedirs` at all — the
`os.path.exists` guard is satisfied by the non-directory entry — and the
write proceeds while "sub" is still not a directory. -/
theorem c7_counterexample :
    fsFileAtSub.dirs.contains "sub" = false ∧
    hasFile fsFileAtSub "sub" = true ∧
    dirname "sub/out.wav" = "sub" ∧
    (chatterboxTTSMain envB fsFileAtSub ["p", "t", "sub/out.wav"]).trace.any isMkdirEv
      = false ∧
    (chatterboxTTSMain envB fsFileAtSub ["p", "t", "sub/out.wav"]).trace.any isSaveEv
      = true ∧
    (chatterboxTTSMain envB fsFileAtSub ["p", "t", "sub/out.wav"]).fs.dirs.contains "sub"
      = false := by
  decide

/-- A regular file at an ancestor ("a", with output "a/b/out.wav") makes
`os.makedirs` fail with `NotADirectoryError`: both scripts catch it, exit 1,
and never call the audio writer — the input family that forces the amended
C7's ancestor hypothesis. -/
theorem makedirsFS_ancestor_file :
    (makedirsFS ⟨[], [("a", 1)]⟩ "a/b").toOption = none ∧
    (chatterboxTTSMain envB ⟨[], [("a", 1)]⟩ ["p", "t", "a/b/out.wav"]).outcome =
      .exit 1 ∧
    (chatterboxTTSMain envB ⟨[], [("a", 1)]⟩ ["p", "t", "a/b/out.wav"]).trace.any
      isSaveEv = false ∧
    (runChatterboxMain envB ⟨[], [("a", 1)]⟩ ["p", "t", "a/b/out.wav"]).outcome =
      .exit 1 ∧
    (runChatterboxMain envB ⟨[], [("a", 1)]⟩ ["p", "t", "a/b/out.wav"]).trace.any
      isSaveEv = false := by
  decide

/-- C7 (amended): when a run reaches the save step, the output path has a
non-empty directory part, no entry of any kind occupies that parent path, and
no regular file occupies any ancestor of the parent path, both scripts issue
`makedirs` (with exist_ok) on the parent strictly before the audio-writer
call, and afterwards the parent directory exists. -/
theorem c7_mkdir_before_save (env : Env) (fs : FS) (p t o : String) (m : Model)
    (wav : Waveform)
    (h1 : env.importTorchResult = .ok ()) (h2 : env.importTTSResult = .ok ())
    (h3 : env.importTorchaudioResult = .ok ())
    (hl : env.loadResult (ctDevice env) = .ok m) (hl2 : env.loadResult "cpu" = .ok m)
    (hg : ∀ e c, m.genResult t e c = .ok wav)
    (hd : dirname o ≠ "")
    (hnd : dirname o ∉ fs.dirs)
    (hnf : hasFile fs (dirname o) = false)
    (hanc : ∀ a ∈ ancestors (dirname o), hasFile fs a = false) :
    (∃ i j, i < j ∧
      ((chatterboxTTSMain env fs [p, t, o]).trace.get? i =
        some (Event.makedirs (dirname o) true)) ∧
      ((chatterboxTTSMain env fs [p, t, o]).trace.get? j = some (Event.save o m.sr)) ∧
      dirname o ∈ (chatterboxTTSMain env fs [p, t, o]).fs.dirs) ∧
    (∃ i j, i < j ∧
      ((runChatterboxMain env fs [p, t, o]).trace.get? i =
        some (Event.makedirs (dirname o) true)) ∧
      ((runChatterboxMain env fs [p, t, o]).trace.get? j = some (Event.save o 24000)) ∧
      dirname o ∈ (runChatterboxMain env fs [p, t, o]).fs.dirs) := by
  have e1 : chatterboxTTSMain env fs [p, t, o] = ctGo env fs t o none none := rfl
  have e2 : runChatterboxMain env fs [p, t, o] = rcGo env fs t o none := rfl
  have hpe : pathExists fs (dirname o) = false := by
    simp [pathExists, hnd, hnf]
  obtain ⟨fs1, hrun, hfiles, hmono, hall⟩ :=
    mkdirChain_spec (ancestors (dirname o) ++ [dirname o]) fs (by
      intro a ha
      rcases List.mem_append.mp ha with ha2 | ha2
      · exact hanc a ha2
      · rw [List.mem_singleton.mp ha2]
        exact hnf)
  have hdin : dirname o ∈ fs1.dirs := hall (dirname o) (by simp)
  have hmd : makedirsFS fs (dirname o) = .ok fs1 := hrun
  have hmk : ctMkStep fs (dirname o) =
      .ok (fs1, [Event.makedirs (dirname o) true]) := by
    unfold ctMkStep
    rw [if_pos ⟨hd, hpe⟩, hmd]
  have hmdir : (if dirname o = "" then "." else dirname o) = dirname o := if_neg hd
  constructor
  · rw [e1]
    simp only [ctGo, parseOpt, h1, h2, h3, hl, hg, hmk]
    cases hsv : env.saveResult o wav m.sr with
    | error e =>
      refine ⟨11, 13, by norm_num, rfl, rfl, ?_⟩
      exact hdin
    | ok created =>
      cases created with
      | none =>
        refine ⟨11, 13, by norm_num, rfl, rfl, ?_⟩
        exact hdin
      | some sz =>
        refine ⟨11, 13, by norm_num, rfl, rfl, ?_⟩
        simpa [setFile] using hdin
  · rw [e2]
    simp only [rcGo, parseOpt, h1, h2, h3, hl2, hg, hmdir, hmd]
    cases hsv : env.saveResult o wav 24000 with
    | error e =>
      cases e with
      | memoryError =>
        refine ⟨13, 14, by norm_num, ?_, ?_, ?_⟩ <;> simp [rcCatch, hdin]
      | error msg =>
        refine ⟨13, 14, by norm_num, ?_, ?_, ?_⟩ <;> simp [rcCatch, hdin]
    | ok created =>
      cases created with
      | none =>
        cases hgf : getFile? fs1 o with
        | none =>
          simp only [hgf]
          refine ⟨13, 14, by norm_num, rfl, rfl, ?_⟩
          exact hdin
        | some sz =>
          simp only [hgf]
          refine ⟨13, 14, by norm_num, rfl, rfl, ?_⟩
          exact hdin
      | some sz =>
        simp only [getFile?_setFile]
        refine ⟨13, 14, by norm_num, rfl, rfl, ?_⟩
        simpa [setFile] using hdin

/-- Witness for C7 (amended): on an empty filesystem with output
"sub/out.wav", both scripts create "sub" before saving. -/
theorem c7_mkdir_before_save_witness :
    dirname "sub/out.wav" ≠ "" ∧
    (∃ i j, i < j ∧
      ((chatterboxTTSMain envB fs0 ["p", "t", "sub/out.wav"]).trace.get? i =
        some (Event.makedirs "sub" true)) ∧
      ((chatterboxTTSMain envB fs0 ["p", "t", "sub/out.wav"]).trace.get? j =
        some (Event.save "sub/out.wav" 22050)) ∧
      "sub" ∈ (chatterboxTTSMain envB fs0 ["p", "t", "sub/out.wav"]).fs.dirs) ∧
    (∃ i j, i < j ∧
      ((runChatterboxMain envB fs0 ["p", "t", "sub/out.wav"]).trace.get? i =
        some (Event.makedirs "sub" true)) ∧
      ((runChatterboxMain envB fs0 ["p", "t", "sub/out.wav"]).trace.get? j =
        some (Event.save "sub/out.wav" 24000)) ∧
      "sub" ∈ (runChatterboxMain envB fs0 ["p", "t", "sub/out.wav"]).fs.dirs) :=
  ⟨by decide,
    (c7_mkdir_before_save envB fs0 "p" "t" "sub/out.wav" modelB wavB
      rfl rfl rfl rfl rfl (fun _ _ => rfl) (by decide) (by decide) (by decide)
      (by decide)).1,
    (c7_mkdir_before_save envB fs0 "p" "t" "sub/out.wav" modelB wavB
      rfl rfl rfl rfl rfl (fun _ _ => rfl) (by decide) (by decide) (by decide)
      (by decide)).2⟩

/-! ### Claim C8 -/

/-- C8: run-chatterbox.py reports success only after checking the output: if
the file exists after the save call it prints the byte size and exits 0; if
it does not, it prints an error line and exits 1. -/
theorem c8_save_postcheck (env : Env) (fs : FS) (p t o : String) (m : Model)
    (wav : Waveform) (fs1 : FS) (sz : Nat)
    (h1 : env.importTorchResult = .ok ()) (h2 : env.importTTSResult = .ok ())
    (h3 : env.importTorchaudioResult = .ok ())
    (hl : env.loadResult "cpu" = .ok m)
    (hg : m.genResult t (PyFloat.finite (mkRat 1 2)) none = .ok wav)
    (hmk : makedirsFS fs (if dirname o = "" then "." else dirname o) = .ok fs1) :
    (env.saveResult o wav 24000 = .ok (some sz) →
      (runChatterboxMain env fs [p, t, o]).outcome = .exit 0 ∧
      Event.print ("[Chatterbox] SUCCESS! Saved " ++ Nat.repr sz ++ " bytes to " ++ o) ∈
        (runChatterboxMain env fs [p, t, o]).trace) ∧
    (env.saveResult o wav 24000 = .ok none → getFile? fs o = none →
      (runChatterboxMain env fs [p, t, o]).outcome = .exit 1 ∧
      Event.print "[Chatterbox] ERROR: File not created" ∈
        (runChatterboxMain env fs [p, t, o]).trace) := by
  have e2 : runChatterboxMain env fs [p, t, o] = rcGo env fs t o none := rfl
  rw [e2]
  constructor
  · intro hs
    simp [rcGo, parseOpt, h1, h2, h3, hl, hg, hmk, hs, getFile?_setFile]
  · intro hs hn
    have hfiles := makedirsFS_files fs _ fs1 hmk
    have hn1 : getFile? fs1 o = none := by
      unfold getFile? at hn ⊢
      rw [hfiles]
      exact hn
    simp [rcGo, parseOpt, h1, h2, h3, hl, hg, hmk, hs, hn1]

/-- Witness for C8: with a writer that writes 42 bytes the script prints the
size and exits 0; with a writer that creates nothing it prints the error and
exits 1. -/
theorem c8_save_postcheck_witness :
    envB.saveResult "o" wavB 24000 = .ok (some 42) ∧
    (runChatterboxMain envB fs0 ["p", "t", "o"]).outcome = .exit 0 ∧
    Event.print ("[Chatterbox] SUCCESS! Saved " ++ Nat.repr 42 ++ " bytes to " ++ "o") ∈
      (runChatterboxMain envB fs0 ["p", "t", "o"]).trace ∧
    (runChatterboxMain envNoFile fs0 ["p", "t", "o"]).outcome = .exit 1 ∧
    Event.print "[Chatterbox] ERROR: File not created" ∈
      (runChatterboxMain envNoFile fs0 ["p", "t", "o"]).trace :=
  ⟨rfl,
    ((c8_save_postcheck envB fs0 "p" "t" "o" modelB wavB ⟨["."], []⟩ 42
      rfl rfl rfl rfl rfl rfl).1 rfl).1,
    ((c8_save_postcheck envB fs0 "p" "t" "o" modelB wavB ⟨["."], []⟩ 42
      rfl rfl rfl rfl rfl rfl).1 rfl).2,
    ((c8_save_postcheck envNoFile fs0 "p" "t" "o" modelB wavB ⟨["."], []⟩ 42
      rfl rfl rfl rfl rfl rfl).2 rfl rfl).1,
    ((c8_save_postcheck envNoFile fs0 "p" "t" "o" modelB wavB ⟨["."], []⟩ 42
      rfl rfl rfl rfl rfl rfl).2 rfl rfl).2⟩

end Wispy
